import Mathlib

set_option maxRecDepth 40000

/-!
Shallow embedding of `server.py`, an MCP server exposing five tools over the
Twitter v2 REST API: `x_get_me`, `x_post_tweet`, `x_post_thread`,
`x_get_tweet`, `x_delete_tweet`.

Modelling conventions:
* Parsed JSON response bodies are `JVal` (a mutual inductive so that all
  functions over it are structural and evaluate by `rfl`/`decide`).
* A network response is `Resp`: status code, raw body text, and the parse
  result of the body (`none` when the body is not JSON, in which case
  Python's `resp.json()` raises).
* Python exceptions are made explicit: fallible code returns
  `Except PyExc _`.  Dict subscription `d[k]` raises `KeyError`/`TypeError`,
  `d.get(k, default)` raises `AttributeError` on non-dicts, `urls[0]` on an
  empty list raises `IndexError`, `resp.json()` on a non-JSON body raises
  `JSONDecodeError`.
* Each tool also returns the list of HTTP requests it issued, so that
  "issues no network request" is a statement about the trace.
* The upstream server is an oracle `Nat → Resp`: the i-th request issued by
  a thread consumes response `oracle i`; single-request tools take the one
  `Resp` they consume.
-/

namespace XMCP

mutual

/-- Parsed JSON values, with objects as explicit association lists. -/
inductive JVal : Type where
  | str (s : String)
  | num (n : Int)
  | bool (b : Bool)
  | null
  | obj (fs : JFields)
  | arr (es : JArr)

inductive JFields : Type where
  | nil
  | cons (k : String) (v : JVal) (rest : JFields)

inductive JArr : Type where
  | nil
  | cons (v : JVal) (rest : JArr)

end

/-- First binding of a key in a JSON object's field list. -/
def JFields.lookup : JFields → String → Option JVal
  | .nil, _ => none
  | .cons k v rest, key => if k = key then some v else JFields.lookup rest key

/-- Python exceptions the server code can raise. -/
inductive PyExc : Type where
  | keyError (k : String)
  | typeError
  | attributeError
  | jsonDecodeError
  | indexError
  deriving DecidableEq

/-- Python `d[k]`: `KeyError` when the key is absent from a dict,
`TypeError` when the subscripted value is not a dict. -/
def JVal.item : JVal → String → Except PyExc JVal
  | .obj fs, k =>
    match fs.lookup k with
    | some v => .ok v
    | none => .error (.keyError k)
  | _, _ => .error .typeError

/-- Python `d.get(k, dflt)`: `AttributeError` when the receiver is not a dict. -/
def JVal.getD : JVal → String → JVal → Except PyExc JVal
  | .obj fs, k, dflt => .ok ((fs.lookup k).getD dflt)
  | _, _, _ => .error .attributeError

/-- Python truthiness of a JSON value. -/
def JVal.truthy : JVal → Bool
  | .str s => s ≠ ""
  | .num n => n ≠ 0
  | .bool b => b
  | .null => false
  | .obj .nil => false
  | .obj (.cons _ _ _) => true
  | .arr .nil => false
  | .arr (.cons _ _) => true

/-- Is the value a JSON object (a Python dict)? -/
def JVal.isObjB : JVal → Bool
  | .obj _ => true
  | _ => false

mutual

/-- Python `repr` of a parsed JSON value (as nested inside dict/list `repr`). -/
def pyRepr : JVal → String
  | .str s => "'" ++ s ++ "'"
  | .num n => toString n
  | .bool b => if b then "True" else "False"
  | .null => "None"
  | .obj fs => "\x7b" ++ pyReprFields fs ++ "\x7d"
  | .arr es => "[" ++ pyReprArr es ++ "]"

def pyReprFields : JFields → String
  | .nil => ""
  | .cons k v .nil => "'" ++ k ++ "': " ++ pyRepr v
  | .cons k v (.cons k2 v2 rest) =>
      "'" ++ k ++ "': " ++ pyRepr v ++ ", " ++ pyReprFields (.cons k2 v2 rest)

def pyReprArr : JArr → String
  | .nil => ""
  | .cons v .nil => pyRepr v
  | .cons v (.cons v2 rest) => pyRepr v ++ ", " ++ pyReprArr (.cons v2 rest)

end

/-- Python `str` of a parsed JSON value, as an f-string renders it at top
level: a string renders without quotes, everything else as its `repr`. -/
def pyStr : JVal → String
  | .str s => s
  | v => pyRepr v

/-- Python `repr` of a list of values (`posted_ids` in an f-string). -/
def pyReprListAux : List JVal → String
  | [] => ""
  | v :: vs => ", " ++ pyRepr v ++ pyReprListAux vs

/-- Python `repr` of a `list` of values. -/
def pyReprList : List JVal → String
  | [] => "[]"
  | v :: vs => "[" ++ pyRepr v ++ pyReprListAux vs ++ "]"

/-- An upstream HTTP response: status code, raw body text, and the body's
JSON parse (`none` when the body is not valid JSON). -/
structure Resp : Type where
  status : Nat
  text : String
  json : Option JVal

/-- Python `resp.json()`: the parsed body, raising `JSONDecodeError` when the
body is not JSON. -/
def Resp.jsonE (r : Resp) : Except PyExc JVal :=
  match r.json with
  | some v => .ok v
  | none => .error .jsonDecodeError

/-- The HTTP requests the server issues.  A post request records the tweet
text and the `in_reply_to_tweet_id` value of the payload's `reply` field
(`none` when the field is omitted). -/
inductive Request : Type where
  | post (text : String) (reply : Option JVal)
  | getTweet (tweet_id : String)
  | deleteTweet (tweet_id : String)
  | getMe

/-- Is the request a DELETE? -/
def Request.isDelete : Request → Bool
  | .deleteTweet _ => true
  | _ => false

/-- `THREAD_SEPARATOR = "\n\n---\n\n"` from `server.py`. -/
def THREAD_SEPARATOR : String := "\n\n---\n\n"

/-- `_post_tweet`'s payload construction: the `reply` field is added only when
`reply_to_id` is truthy (`if reply_to_id:`). -/
def replyField : Option JVal → Option JVal
  | some v => if v.truthy then some v else none
  | none => none

/-- The request `_post_tweet(text, reply_to_id)` issues. -/
def postRequest (text : String) (reply_to_id : Option JVal) : Request :=
  .post text (replyField reply_to_id)

/-- Python `text.split("\n\n---\n\n")` on the character list: leftmost,
non-overlapping occurrences of the literal separator. -/
def splitSep : List Char → List Char → List (List Char)
  | '\n' :: '\n' :: '-' :: '-' :: '-' :: '\n' :: '\n' :: rest, acc =>
      acc.reverse :: splitSep rest []
  | c :: rest, acc => splitSep rest (c :: acc)
  | [], acc => [acc.reverse]

/-- Python `str.strip()` whitespace. -/
def isPySpace (c : Char) : Bool :=
  c == ' ' || c == '\t' || c == '\n' || c == '\r' || c == '\x0b' || c == '\x0c'

/-- Python `t.strip()` on the character list. -/
def pyStrip (cs : List Char) : List Char :=
  ((cs.dropWhile isPySpace).reverse.dropWhile isPySpace).reverse

/-- `[t.strip() for t in text.split(THREAD_SEPARATOR) if t.strip()]` from
`x_post_thread`. -/
def splitThread (text : String) : List String :=
  (((splitSep text.data []).map fun cs => String.mk (pyStrip cs)).filter
    fun t => t ≠ "")

/-- The validation loop of `x_post_thread`: the first over-long segment, as
(0-based index, length), scanning in order; `none` when all fit. -/
def firstOverLong : List String → Nat → Option (Nat × Nat)
  | [], _ => none
  | t :: ts, i => if 280 < t.length then some (i, t.length) else firstOverLong ts (i + 1)

/-- `x_post_tweet(text)` given the response its one post request receives.
Returns the tool's result (or the Python exception it raises) and the list
of requests issued. -/
def x_post_tweet (text : String) (resp : Resp) : Except PyExc String × List Request :=
  if 280 < text.length then
    (.ok ("Error: Tweet too long (" ++ toString text.length ++ " chars). Max 280."), [])
  else
    let req := postRequest text none
    match resp.jsonE with
    | .error e => (.error e, [req])
    | .ok d =>
      if resp.status ≠ 201 then
        (.ok ("Error posting tweet: " ++ pyStr d), [req])
      else
        match d.item "data" with
        | .error e => (.error e, [req])
        | .ok dd =>
          match dd.item "id" with
          | .error e => (.error e, [req])
          | .ok tid =>
            (.ok ("Tweet posted!\nID: " ++ pyStr tid ++
                  "\nURL: https://twitter.com/i/status/" ++ pyStr tid), [req])

/-- The final success formatting of `x_post_thread` (`urls[0]` raises
`IndexError` on an empty list, which the `≥ 2` guard makes unreachable). -/
def threadDone (ids : List JVal) : Except PyExc String :=
  match ids with
  | [] => .error .indexError
  | tid :: _ =>
      .ok ("Thread posted! (" ++ toString ids.length ++ " tweets)\nIDs: " ++
           pyReprList ids ++ "\nFirst tweet: https://twitter.com/i/status/" ++ pyStr tid)

/-- The posting loop of `x_post_thread`: remaining segments, running index,
identifiers posted so far, current reply target. -/
def threadLoop (oracle : Nat → Resp) :
    List String → Nat → List JVal → Option JVal → Except PyExc String × List Request
  | [], _, posted, _ => (threadDone posted, [])
  | tweet :: rest, i, posted, reply_to =>
    let req := postRequest tweet reply_to
    match (oracle i).jsonE with
    | .error e => (.error e, [req])
    | .ok d =>
      if (oracle i).status ≠ 201 then
        (.ok ("Error posting tweet " ++ toString (i + 1) ++ ": " ++ pyStr d ++
              "\nPosted so far: " ++ pyReprList posted), [req])
      else
        match d.item "data" with
        | .error e => (.error e, [req])
        | .ok dd =>
          match dd.item "id" with
          | .error e => (.error e, [req])
          | .ok tid =>
            let r := threadLoop oracle rest (i + 1) (posted ++ [tid]) (some tid)
            (r.1, req :: r.2)

/-- `x_post_thread(text)` against the response oracle. -/
def x_post_thread (text : String) (oracle : Nat → Resp) :
    Except PyExc String × List Request :=
  let tweets := splitThread text
  if tweets.length < 2 then
    (.ok "Error: Thread must have at least 2 tweets. Use '\\n\\n---\\n\\n' as separator.", [])
  else
    match firstOverLong tweets 0 with
    | some (i, n) =>
        (.ok ("Error: Tweet " ++ toString (i + 1) ++ " too long (" ++ toString n ++
              " chars). Max 280."), [])
    | none => threadLoop oracle tweets 0 [] none

/-- `x_get_me()` given the response of its one request: result string or the
exception raised. -/
def x_get_me_out (resp : Resp) : Except PyExc String :=
  match resp.jsonE with
  | .error e => .error e
  | .ok d =>
    if resp.status ≠ 200 then .ok ("Error: " ++ pyStr d)
    else
      match d.item "data" with
      | .error e => .error e
      | .ok data =>
        match JVal.getD data "public_metrics" (.obj .nil) with
        | .error e => .error e
        | .ok metrics =>
          match data.item "username" with
          | .error e => .error e
          | .ok u =>
            match data.item "name" with
            | .error e => .error e
            | .ok nm =>
              match data.item "id" with
              | .error e => .error e
              | .ok idv =>
                match JVal.getD metrics "followers_count" (.str "N/A") with
                | .error e => .error e
                | .ok c1 =>
                  match JVal.getD metrics "following_count" (.str "N/A") with
                  | .error e => .error e
                  | .ok c2 =>
                    match JVal.getD metrics "tweet_count" (.str "N/A") with
                    | .error e => .error e
                    | .ok c3 =>
                      .ok ("Authenticated as: @" ++ pyStr u ++ "\nName: " ++ pyStr nm ++
                           "\nID: " ++ pyStr idv ++ "\nFollowers: " ++ pyStr c1 ++
                           "\nFollowing: " ++ pyStr c2 ++ "\nTweets: " ++ pyStr c3)

/-- `x_get_me()` with its request trace. -/
def x_get_me (resp : Resp) : Except PyExc String × List Request :=
  (x_get_me_out resp, [.getMe])

/-- `x_get_tweet(tweet_id)` given the response of its one request. -/
def x_get_tweet_out (resp : Resp) : Except PyExc String :=
  match resp.jsonE with
  | .error e => .error e
  | .ok d =>
    if resp.status ≠ 200 then .ok ("Error: " ++ pyStr d)
    else
      match d.item "data" with
      | .error e => .error e
      | .ok data =>
        match JVal.getD data "public_metrics" (.obj .nil) with
        | .error e => .error e
        | .ok metrics =>
          match data.item "id" with
          | .error e => .error e
          | .ok idv =>
            match JVal.getD data "text" (.str "N/A") with
            | .error e => .error e
            | .ok tx =>
              match JVal.getD data "created_at" (.str "N/A") with
              | .error e => .error e
              | .ok cr =>
                match JVal.getD metrics "like_count" (.num 0) with
                | .error e => .error e
                | .ok m1 =>
                  match JVal.getD metrics "retweet_count" (.num 0) with
                  | .error e => .error e
                  | .ok m2 =>
                    match JVal.getD metrics "reply_count" (.num 0) with
                    | .error e => .error e
                    | .ok m3 =>
                      match JVal.getD metrics "impression_count" (.num 0) with
                      | .error e => .error e
                      | .ok m4 =>
                        match JVal.getD metrics "quote_count" (.num 0) with
                        | .error e => .error e
                        | .ok m5 =>
                          match JVal.getD metrics "bookmark_count" (.num 0) with
                          | .error e => .error e
                          | .ok m6 =>
                            .ok ("Tweet ID: " ++ pyStr idv ++ "\nText: " ++ pyStr tx ++
                                 "\nCreated: " ++ pyStr cr ++ "\n\nMetrics:\n- Likes: " ++
                                 pyStr m1 ++ "\n- Retweets: " ++ pyStr m2 ++
                                 "\n- Replies: " ++ pyStr m3 ++ "\n- Impressions: " ++
                                 pyStr m4 ++ "\n- Quotes: " ++ pyStr m5 ++
                                 "\n- Bookmarks: " ++ pyStr m6)

/-- `x_get_tweet(tweet_id)` with its request trace. -/
def x_get_tweet (tweet_id : String) (resp : Resp) : Except PyExc String × List Request :=
  (x_get_tweet_out resp, [.getTweet tweet_id])

/-- `x_delete_tweet(tweet_id)` given the response of its one request:
`resp.json() if resp.text else {}`, then the status branch. -/
def x_delete_tweet_out (tweet_id : String) (resp : Resp) : Except PyExc String :=
  match (if resp.text ≠ "" then resp.jsonE else .ok (JVal.obj .nil)) with
  | .error e => .error e
  | .ok d =>
    if resp.status ≠ 200 then .ok ("Error deleting tweet: " ++ pyStr d)
    else .ok ("Tweet " ++ tweet_id ++ " deleted successfully.")

/-- `x_delete_tweet(tweet_id)` with its request trace. -/
def x_delete_tweet (tweet_id : String) (resp : Resp) : Except PyExc String × List Request :=
  (x_delete_tweet_out tweet_id resp, [.deleteTweet tweet_id])

/-- `os.getenv(key, "")` over an explicit environment. -/
def os_getenv (env : String → Option String) (k : String) (dflt : String) : String :=
  (env k).getD dflt

/-- `TWITTER_API_KEY = os.getenv("TWITTER_API_KEY", "")`. -/
def TWITTER_API_KEY (env : String → Option String) : String :=
  os_getenv env "TWITTER_API_KEY" ""

/-- `TWITTER_API_KEY_SECRET = os.getenv("TWITTER_API_KEY_SECRET", "")`. -/
def TWITTER_API_KEY_SECRET (env : String → Option String) : String :=
  os_getenv env "TWITTER_API_KEY_SECRET" ""

/-- `TWITTER_ACCESS_TOKEN = os.getenv("TWITTER_ACCESS_TOKEN", "")`. -/
def TWITTER_ACCESS_TOKEN (env : String → Option String) : String :=
  os_getenv env "TWITTER_ACCESS_TOKEN" ""

/-- `TWITTER_ACCESS_TOKEN_SECRET = os.getenv("TWITTER_ACCESS_TOKEN_SECRET", "")`. -/
def TWITTER_ACCESS_TOKEN_SECRET (env : String → Option String) : String :=
  os_getenv env "TWITTER_ACCESS_TOKEN_SECRET" ""

/-- The four positional arguments of the `OAuth1(...)` constructor. -/
structure OAuth1 : Type where
  client_key : String
  client_secret : String
  resource_owner_key : String
  resource_owner_secret : String

/-- `twitter_auth = OAuth1(KEY, KEY_SECRET, TOKEN, TOKEN_SECRET)`. -/
def twitter_auth (env : String → Option String) : OAuth1 :=
  { client_key := TWITTER_API_KEY env
    client_secret := TWITTER_API_KEY_SECRET env
    resource_owner_key := TWITTER_ACCESS_TOKEN env
    resource_owner_secret := TWITTER_ACCESS_TOKEN_SECRET env }

/-- `result["data"]["data"]["id"]` of a post response, with the exceptions
each step can raise. -/
def respIdE (r : Resp) : Except PyExc JVal :=
  match r.jsonE with
  | .error e => .error e
  | .ok d =>
    match d.item "data" with
    | .error e => .error e
    | .ok dd => dd.item "id"

/-- The string identifier a post response carries (`""` when it carries
none or a non-string one). -/
def respIdD (r : Resp) : String :=
  match respIdE r with
  | .ok (.str s) => s
  | _ => ""

/-- A response that lets the posting loop advance: created (201) with a
non-empty string identifier at `data.id`. -/
def goodPost (r : Resp) : Prop :=
  r.status = 201 ∧ ∃ s, respIdE r = .ok (.str s) ∧ s ≠ ""

/-- A response the posting loop survives without an exception: a JSON body,
and on 201 an extractable identifier of any kind. -/
def weakOk (r : Resp) : Prop :=
  (∃ d, r.jsonE = .ok d) ∧ (r.status = 201 → ∃ v, respIdE r = .ok v)

/-- The posting loop advances past a response (and so consumes the next
one): status 201 with an extractable identifier. -/
def advancesPost (r : Resp) : Prop :=
  r.status = 201 ∧ ∃ v, respIdE r = .ok v

/-- The identifiers `k` consecutive good responses return, starting at
oracle index `i`. -/
def postedIds (oracle : Nat → Resp) (i : Nat) : Nat → List JVal
  | 0 => []
  | k + 1 => JVal.str (respIdD (oracle i)) :: postedIds oracle (i + 1) k

/-- The request sequence a run of the posting loop issues when every
response is good: each request replies to the identifier of the previous
response. -/
def expectedReqs (oracle : Nat → Resp) :
    List String → Nat → Option JVal → List Request
  | [], _, _ => []
  | t :: ts, i, reply =>
      postRequest t reply ::
        expectedReqs oracle ts (i + 1) (some (.str (respIdD (oracle i))))

/-- A well-formed 201 response carrying the given tweet identifier. -/
def okPostResp (id : String) : Resp :=
  { status := 201, text := "ok",
    json := some (.obj (.cons "data" (.obj (.cons "id" (.str id) .nil)) .nil)) }

/-- An oracle of well-formed 201 responses with identifiers "1", "2", ... -/
def thOracle : Nat → Resp := fun n => okPostResp (toString (n + 1))

/-- A failing response with a JSON error body. -/
def errResp : Resp :=
  { status := 403, text := "err",
    json := some (.obj (.cons "title" (.str "Forbidden") .nil)) }

/-- An environment defining only `TWITTER_API_KEY`. -/
def envOne : String → Option String :=
  fun k => if k = "TWITTER_API_KEY" then some "k1" else none

/-- Did the tool return a string (rather than raise)? -/
def isOkStr : Except PyExc String → Bool
  | .ok _ => true
  | .error _ => false

/-- A 280-character text. -/
def t280 : String := String.mk (List.replicate 280 'a')

/-- A 281-character text. -/
def t281 : String := String.mk (List.replicate 281 'a')

/-- A thread input of two 280-character segments. -/
def th280 : String := t280 ++ THREAD_SEPARATOR ++ t280

/-- A thread input whose second trimmed segment has 281 characters. -/
def tC3 : String := "ok" ++ THREAD_SEPARATOR ++ t281

/-- An oracle whose first response is good and whose later responses fail. -/
def failOracle : Nat → Resp := fun n => if n = 0 then okPostResp "1" else errResp

/-- A 500 response whose body is not JSON. -/
def nonJsonResp : Resp := { status := 500, text := "oops", json := none }

/-- A 200 `users/me` response whose `data` object has no `username`. -/
def meMissingUser : Resp :=
  { status := 200, text := "ok", json := some (.obj (.cons "data" (.obj .nil) .nil)) }

/-- A 201 post response whose body has no `data` key. -/
def post201NoData : Resp := { status := 201, text := "ok", json := some (.obj .nil) }

/-- A 200 `users/me` response with `username`, `name`, `id` and no
`public_metrics`. -/
def meResp : Resp :=
  { status := 200, text := "ok",
    json := some (.obj (.cons "data"
      (.obj (.cons "username" (.str "alice")
        (.cons "name" (.str "Alice")
          (.cons "id" (.str "42") .nil)))) .nil)) }

/-- A 200 tweet-lookup response carrying only the tweet's `id`. -/
def tweetResp : Resp :=
  { status := 200, text := "ok",
    json := some (.obj (.cons "data" (.obj (.cons "id" (.str "99") .nil)) .nil)) }

/-- A 200 delete response with an empty body. -/
def delResp : Resp := { status := 200, text := "", json := none }

/-- An oracle whose first response is a 403 JSON error (the only one a
two-segment thread consumes) and whose later responses are not JSON. -/
def mixedOracle : Nat → Resp := fun n => if n = 0 then errResp else nonJsonResp

/-! Helper lemmas shared by the claim theorems. -/

theorem str_append_empty (s : String) : s ++ "" = s := by
  cases s with
  | mk l => show String.mk (l ++ []) = String.mk l
            rw [List.append_nil]

theorem str_append_assoc (a b c : String) : a ++ b ++ c = a ++ (b ++ c) := by
  cases a with
  | mk la =>
    cases b with
    | mk lb =>
      cases c with
      | mk lc => show String.mk (la ++ lb ++ lc) = String.mk (la ++ (lb ++ lc))
                 rw [List.append_assoc]

theorem item_ok_isObj (v : JVal) (k : String) (x : JVal) (h : v.item k = .ok x) :
    ∃ fs, v = .obj fs ∧ fs.lookup k = some x := by
  cases v <;> simp [JVal.item] at h
  case obj fs =>
    cases hl : fs.lookup k with
    | none => rw [hl] at h; cases h
    | some w => rw [hl] at h; cases h; exact ⟨fs, rfl, hl⟩

theorem getD_ok_of_item_ok (v : JVal) (k : String) (dflt x : JVal)
    (h : v.item k = .ok x) : JVal.getD v k dflt = .ok x := by
  obtain ⟨fs, rfl, hl⟩ := item_ok_isObj v k x h
  simp [JVal.getD, hl]

theorem getD_ok_of_item_keyError (v : JVal) (k : String) (dflt : JVal)
    (h : v.item k = .error (.keyError k)) : JVal.getD v k dflt = .ok dflt := by
  cases v <;> simp [JVal.item] at h
  case obj fs =>
    cases hl : fs.lookup k with
    | none => simp [JVal.getD, hl]
    | some w => rw [hl] at h; cases h

theorem getD_obj_ok (fs : JFields) (k : String) (dflt : JVal) :
    ∃ v, JVal.getD (.obj fs) k dflt = .ok v := ⟨_, rfl⟩

theorem getD_obj_eq (fs : JFields) (k : String) (dflt : JVal) :
    JVal.getD (.obj fs) k dflt = .ok ((fs.lookup k).getD dflt) := rfl

theorem respIdE_ok_inv (r : Resp) (v : JVal) (h : respIdE r = .ok v) :
    ∃ d dd, r.jsonE = .ok d ∧ d.item "data" = .ok dd ∧ dd.item "id" = .ok v := by
  unfold respIdE at h
  split at h
  next e heq => cases h
  next d heq =>
    split at h
    next e heq2 => cases h
    next dd heq2 => exact ⟨d, dd, heq, heq2, h⟩

theorem goodPost_respIdD (r : Resp) (h : goodPost r) :
    r.status = 201 ∧ respIdE r = .ok (.str (respIdD r)) ∧ respIdD r ≠ "" := by
  obtain ⟨hst, s, he, hs⟩ := h
  have hD : respIdD r = s := by unfold respIdD; rw [he]
  exact ⟨hst, by rw [he, hD], by rw [hD]; exact hs⟩

theorem replyField_str (s : String) (h : s ≠ "") :
    replyField (some (.str s)) = some (.str s) := by
  simp [replyField, JVal.truthy, h]

theorem firstOverLong_none_iff (ts : List String) :
    ∀ i, firstOverLong ts i = none ↔ ∀ s ∈ ts, s.length ≤ 280 := by
  induction ts with
  | nil => intro i; simp [firstOverLong]
  | cons t ts ih =>
    intro i
    simp only [firstOverLong]
    by_cases h : 280 < t.length
    · simp only [if_pos h, List.mem_cons]
      constructor
      · intro hc; cases hc
      · intro hall; have := hall t (Or.inl rfl); omega
    · simp only [if_neg h, ih (i + 1), List.mem_cons]
      constructor
      · intro hall s hs
        rcases hs with rfl | hs
        · omega
        · exact hall s hs
      · intro hall s hs
        exact hall s (Or.inr hs)

theorem firstOverLong_shift (ts : List String) :
    ∀ i, firstOverLong ts i = (firstOverLong ts 0).map fun p => (p.1 + i, p.2) := by
  induction ts with
  | nil => intro i; simp [firstOverLong]
  | cons t ts ih =>
    intro i
    by_cases h : 280 < t.length
    · simp [firstOverLong, h]
    · simp only [firstOverLong, if_neg h]
      rw [ih (i + 1), ih 1, Option.map_map]
      rcases firstOverLong ts 0 with _ | ⟨a, b⟩ <;> simp; omega

theorem firstOverLong_zero_spec (ts : List String) :
    ∀ i n, firstOverLong ts 0 = some (i, n) →
      i < ts.length ∧ (ts.getD i "").length = n ∧ 280 < n ∧
        ∀ j, j < i → (ts.getD j "").length ≤ 280 := by
  induction ts with
  | nil => intro i n h; simp [firstOverLong] at h
  | cons t ts ih =>
    intro i n h
    by_cases hl : 280 < t.length
    · simp [firstOverLong, hl] at h
      obtain ⟨hi, hn⟩ := h
      subst hi; subst hn
      exact ⟨by simp, by simp, hl, by omega⟩
    · simp only [firstOverLong, if_neg hl] at h
      rw [firstOverLong_shift ts 1] at h
      rcases hf : firstOverLong ts 0 with _ | ⟨a, b⟩
      · rw [hf] at h; cases h
      · rw [hf] at h
        simp at h
        obtain ⟨hi, hn⟩ := h
        obtain ⟨ha, hb, hc, hd⟩ := ih a b hf
        subst hn
        constructor
        · simp; omega
        refine ⟨?_, hc, ?_⟩
        · have : i = a + 1 := by omega
          subst this; simpa using hb
        · intro j hj
          have : i = a + 1 := by omega
          subst this
          cases j with
          | zero => simpa using (by omega : t.length ≤ 280)
          | succ j' => simpa using hd j' (by omega)

theorem x_post_thread_valid (text : String) (oracle : Nat → Resp)
    (h2 : 2 ≤ (splitThread text).length)
    (hval : ∀ s ∈ splitThread text, s.length ≤ 280) :
    x_post_thread text oracle = threadLoop oracle (splitThread text) 0 [] none := by
  have hn : ¬ (splitThread text).length < 2 := by omega
  have hf : firstOverLong (splitThread text) 0 = none :=
    (firstOverLong_none_iff (splitThread text) 0).mpr hval
  unfold x_post_thread
  simp only [hf, if_neg hn]

theorem threadLoop_success (oracle : Nat → Resp) (tweets : List String) :
    ∀ i posted reply, (∀ j, j < tweets.length → goodPost (oracle (i + j))) →
      threadLoop oracle tweets i posted reply =
        (threadDone (posted ++ postedIds oracle i tweets.length),
         expectedReqs oracle tweets i reply) := by
  induction tweets with
  | nil =>
    intro i posted reply _
    simp [threadLoop, postedIds, expectedReqs]
  | cons t ts ih =>
    intro i posted reply h
    obtain ⟨hst, hidE, hne⟩ := goodPost_respIdD _ (by simpa using h 0 (by simp))
    obtain ⟨d, dd, hj, hdd, hid⟩ := respIdE_ok_inv _ _ hidE
    have hshift : ∀ j, j < ts.length → goodPost (oracle (i + 1 + j)) := by
      intro j hjlt
      have := h (j + 1) (by simpa using Nat.succ_lt_succ hjlt)
      rwa [show i + (j + 1) = i + 1 + j by omega] at this
    rw [show threadLoop oracle (t :: ts) i posted reply =
          ((threadLoop oracle ts (i + 1)
              (posted ++ [JVal.str (respIdD (oracle i))])
              (some (.str (respIdD (oracle i))))).1,
           postRequest t reply ::
             (threadLoop oracle ts (i + 1)
               (posted ++ [JVal.str (respIdD (oracle i))])
               (some (.str (respIdD (oracle i))))).2) by
        simp [threadLoop, hj, hst, hdd, hid]]
    rw [ih (i + 1) (posted ++ [JVal.str (respIdD (oracle i))])
          (some (.str (respIdD (oracle i)))) hshift]
    simp [postedIds, expectedReqs, List.append_assoc]

theorem threadLoop_fail (oracle : Nat → Resp) (tweets : List String) :
    ∀ i posted reply k d, k < tweets.length →
      (∀ j, j < k → goodPost (oracle (i + j))) →
      (oracle (i + k)).status ≠ 201 → (oracle (i + k)).jsonE = .ok d →
      threadLoop oracle tweets i posted reply =
        (.ok ("Error posting tweet " ++ toString (i + k + 1) ++ ": " ++ pyStr d ++
              "\nPosted so far: " ++ pyReprList (posted ++ postedIds oracle i k)),
         (expectedReqs oracle tweets i reply).take (k + 1)) := by
  induction tweets with
  | nil => intro i posted reply k d hk _ _ _; simp at hk
  | cons t ts ih =>
    intro i posted reply k d hk hgood hfail hjson
    cases k with
    | zero =>
      simp only [Nat.add_zero] at hfail hjson
      simp [threadLoop, hjson, hfail, postedIds, expectedReqs]
    | succ k' =>
      obtain ⟨hst, hidE, hne⟩ := goodPost_respIdD _ (by simpa using hgood 0 (by omega))
      obtain ⟨d0, dd, hj, hdd, hid⟩ := respIdE_ok_inv _ _ hidE
      have hgood' : ∀ j, j < k' → goodPost (oracle (i + 1 + j)) := by
        intro j hjlt
        have := hgood (j + 1) (by omega)
        rwa [show i + (j + 1) = i + 1 + j by omega] at this
      have hfail' : (oracle (i + 1 + k')).status ≠ 201 := by
        rwa [show i + 1 + k' = i + (k' + 1) by omega]
      have hjson' : (oracle (i + 1 + k')).jsonE = .ok d := by
        rwa [show i + 1 + k' = i + (k' + 1) by omega]
      rw [show threadLoop oracle (t :: ts) i posted reply =
            ((threadLoop oracle ts (i + 1)
                (posted ++ [JVal.str (respIdD (oracle i))])
                (some (.str (respIdD (oracle i))))).1,
             postRequest t reply ::
               (threadLoop oracle ts (i + 1)
                 (posted ++ [JVal.str (respIdD (oracle i))])
                 (some (.str (respIdD (oracle i))))).2) by
          simp [threadLoop, hj, hst, hdd, hid]]
      rw [ih (i + 1) (posted ++ [JVal.str (respIdD (oracle i))])
            (some (.str (respIdD (oracle i)))) k' d (by simpa using hk) hgood' hfail' hjson']
      simp [postedIds, expectedReqs, List.append_assoc, List.take_succ_cons,
            show i + 1 + k' + 1 = i + (k' + 1) + 1 from by omega]

theorem threadLoop_ok (oracle : Nat → Resp) (tweets : List String) :
    ∀ i posted reply,
      (∀ j, j < tweets.length →
        (∀ m, m < j → advancesPost (oracle (i + m))) → weakOk (oracle (i + j))) →
      posted ≠ [] ∨ tweets ≠ [] →
      ∃ s, (threadLoop oracle tweets i posted reply).1 = .ok s := by
  induction tweets with
  | nil =>
    intro i posted reply _ hne
    rcases posted with _ | ⟨p, ps⟩
    · simp at hne
    · exact ⟨_, rfl⟩
  | cons t ts ih =>
    intro i posted reply h hne
    obtain ⟨⟨d, hj⟩, h201⟩ := h 0 (by simp) (fun m hm => absurd hm (by omega))
    rw [show i + 0 = i from rfl] at hj h201
    by_cases hst : (oracle i).status = 201
    · obtain ⟨v, hv⟩ := h201 hst
      obtain ⟨d', dd, hj', hdd, hid⟩ := respIdE_ok_inv _ _ hv
      have hdeq : d' = d := by rw [hj] at hj'; cases hj'; rfl
      subst hdeq
      have hadv : advancesPost (oracle i) := ⟨hst, v, hv⟩
      have step : (threadLoop oracle (t :: ts) i posted reply).1 =
          (threadLoop oracle ts (i + 1) (posted ++ [v]) (some v)).1 := by
        simp [threadLoop, hj, hst, hdd, hid]
      rw [step]
      exact ih (i + 1) (posted ++ [v]) (some v)
        (fun j hj2 hpre => by
          have hpre' : ∀ m, m < j + 1 → advancesPost (oracle (i + m)) := by
            intro m hm
            cases m with
            | zero => exact hadv
            | succ m' =>
              have := hpre m' (by omega)
              rwa [show i + 1 + m' = i + (m' + 1) by omega] at this
          have := h (j + 1) (by simpa using Nat.succ_lt_succ hj2) hpre'
          rwa [show i + (j + 1) = i + 1 + j by omega] at this)
        (Or.inl (by simp))
    · refine ⟨"Error posting tweet " ++ toString (i + 1) ++ ": " ++ pyStr d ++
        "\nPosted so far: " ++ pyReprList posted, ?_⟩
      simp [threadLoop, hj, hst]

theorem expectedReqs_length (oracle : Nat → Resp) (ts : List String) :
    ∀ i reply, (expectedReqs oracle ts i reply).length = ts.length := by
  induction ts with
  | nil => intro i reply; simp [expectedReqs]
  | cons t ts ih => intro i reply; simp [expectedReqs, ih]

theorem expectedReqs_getD (oracle : Nat → Resp) (ts : List String) :
    ∀ i reply j, j < ts.length →
      (expectedReqs oracle ts i reply).getD j .getMe =
        postRequest (ts.getD j "")
          (if j = 0 then reply else some (.str (respIdD (oracle (i + j - 1))))) := by
  induction ts with
  | nil => intro i reply j hj; simp at hj
  | cons t ts ih =>
    intro i reply j hj
    cases j with
    | zero => simp [expectedReqs]
    | succ j' =>
      have := ih (i + 1) (some (.str (respIdD (oracle i)))) j' (by simpa using hj)
      simp only [expectedReqs, List.getD_cons_succ]
      rw [this]
      cases j' with
      | zero => simp
      | succ j'' =>
        simp only [if_neg (by omega : ¬ j'' + 1 = 0), if_neg (by omega : ¬ j'' + 1 + 1 = 0)]
        rw [show i + 1 + (j'' + 1) - 1 = i + (j'' + 1 + 1) - 1 from by omega]

theorem expectedReqs_mem_post (oracle : Nat → Resp) (ts : List String) :
    ∀ i reply r, r ∈ expectedReqs oracle ts i reply → ∃ tx rp, r = .post tx rp := by
  induction ts with
  | nil => intro i reply r hr; simp [expectedReqs] at hr
  | cons t ts ih =>
    intro i reply r hr
    simp only [expectedReqs, List.mem_cons] at hr
    rcases hr with rfl | hr
    · exact ⟨t, replyField reply, rfl⟩
    · exact ih _ _ r hr

/-! The claims. -/

/-- C4: for every text longer than 280 characters, `x_post_tweet` returns the
error string reporting the actual length and the 280 limit, and issues no
network request (empty request trace). -/
theorem claim_C4 (text : String) (resp : Resp) (h : 280 < text.length) :
    x_post_tweet text resp =
      (.ok ("Error: Tweet too long (" ++ toString text.length ++ " chars). Max 280."), []) := by
  unfold x_post_tweet
  rw [if_pos h]

/-- Witness for C4 at a concrete 281-character text. -/
theorem claim_C4_witness :
    280 < t281.length ∧
      x_post_tweet t281 errResp =
        (.ok ("Error: Tweet too long (" ++ toString t281.length ++ " chars). Max 280."), []) :=
  ⟨by decide, claim_C4 t281 errResp (by decide)⟩

/-- C5: for every thread input whose split on the separator yields fewer than
2 non-empty trimmed segments, `x_post_thread` returns the error string and
issues no network request. -/
theorem claim_C5 (text : String) (oracle : Nat → Resp)
    (h : (splitThread text).length < 2) :
    x_post_thread text oracle =
      (.ok "Error: Thread must have at least 2 tweets. Use '\\n\\n---\\n\\n' as separator.",
       []) := by
  unfold x_post_thread
  rw [if_pos h]

/-- Witness for C5 at the one-segment input "solo". -/
theorem claim_C5_witness :
    (splitThread "solo").length < 2 ∧
      x_post_thread "solo" thOracle =
        (.ok "Error: Thread must have at least 2 tweets. Use '\\n\\n---\\n\\n' as separator.",
         []) :=
  ⟨by decide, claim_C5 "solo" thOracle (by decide)⟩

/-- C9: each of the four credential strings is the value of its environment
variable, an absent variable yields the empty string (no startup failure),
and `twitter_auth` is built from exactly these four values. In the pure
embedding the credentials are bound once and never mutated, as in the
straight-line module body. -/
theorem claim_C9 (env : String → Option String) :
    (env "TWITTER_API_KEY" = none → TWITTER_API_KEY env = "") ∧
    (env "TWITTER_API_KEY_SECRET" = none → TWITTER_API_KEY_SECRET env = "") ∧
    (env "TWITTER_ACCESS_TOKEN" = none → TWITTER_ACCESS_TOKEN env = "") ∧
    (env "TWITTER_ACCESS_TOKEN_SECRET" = none → TWITTER_ACCESS_TOKEN_SECRET env = "") ∧
    (∀ v, env "TWITTER_API_KEY" = some v → TWITTER_API_KEY env = v) ∧
    (∀ v, env "TWITTER_API_KEY_SECRET" = some v → TWITTER_API_KEY_SECRET env = v) ∧
    (∀ v, env "TWITTER_ACCESS_TOKEN" = some v → TWITTER_ACCESS_TOKEN env = v) ∧
    (∀ v, env "TWITTER_ACCESS_TOKEN_SECRET" = some v → TWITTER_ACCESS_TOKEN_SECRET env = v) ∧
    twitter_auth env =
      { client_key := TWITTER_API_KEY env
        client_secret := TWITTER_API_KEY_SECRET env
        resource_owner_key := TWITTER_ACCESS_TOKEN env
        resource_owner_secret := TWITTER_ACCESS_TOKEN_SECRET env } := by
  refine ⟨?_, ?_, ?_, ?_, ?_, ?_, ?_, ?_, rfl⟩ <;>
    first
      | (intro h
         simp [TWITTER_API_KEY, TWITTER_API_KEY_SECRET, TWITTER_ACCESS_TOKEN,
               TWITTER_ACCESS_TOKEN_SECRET, os_getenv, h])
      | (intro v h
         simp [TWITTER_API_KEY, TWITTER_API_KEY_SECRET, TWITTER_ACCESS_TOKEN,
               TWITTER_ACCESS_TOKEN_SECRET, os_getenv, h])

/-- Witness for C9 on an environment defining only the first variable. -/
theorem claim_C9_witness :
    TWITTER_API_KEY envOne = "k1" ∧ TWITTER_API_KEY_SECRET envOne = "" := by
  have h := claim_C9 envOne
  exact ⟨h.2.2.2.2.1 "k1" (by decide), h.2.1 (by decide)⟩

/-- C10: the 280-character limit is inclusive. A text of exactly 280
characters passes `x_post_tweet`'s validation (the post request is issued),
and a thread all of whose trimmed segments have length at most 280
(in particular exactly 280) passes the per-segment validation and posting
begins with the first segment. -/
theorem claim_C10 :
    (∀ (resp : Resp) (text : String), text.length = 280 →
        (x_post_tweet text resp).2 = [Request.post text none]) ∧
    (∀ (oracle : Nat → Resp) (text : String),
        2 ≤ (splitThread text).length →
        (∀ s ∈ splitThread text, s.length ≤ 280) →
        ∃ rest, (x_post_thread text oracle).2 =
          Request.post ((splitThread text).getD 0 "") none :: rest) := by
  constructor
  · intro resp text h
    have hn : ¬ 280 < text.length := by omega
    unfold x_post_tweet
    rw [if_neg hn]
    split
    · rfl
    · split
      · rfl
      · split
        · rfl
        · split
          · rfl
          · rfl
  · intro oracle text h2 hval
    rw [x_post_thread_valid text oracle h2 hval]
    obtain ⟨t, ts, htw⟩ : ∃ t ts, splitThread text = t :: ts := by
      rcases hs : splitThread text with _ | ⟨a, b⟩
      · rw [hs] at h2; simp at h2
      · exact ⟨a, b, rfl⟩
    rw [htw]
    have hget : (t :: ts).getD 0 "" = t := rfl
    rw [hget]
    show ∃ rest, (threadLoop oracle (t :: ts) 0 [] none).2 = Request.post t none :: rest
    rcases hj : (oracle 0).jsonE with e | d
    · exact ⟨[], by simp [threadLoop, hj, postRequest, replyField]⟩
    · by_cases hst : (oracle 0).status ≠ 201
      · exact ⟨[], by simp [threadLoop, hj, hst, postRequest, replyField]⟩
      · rcases hdd : d.item "data" with e | dd
        · exact ⟨[], by simp [threadLoop, hj, hst, hdd, postRequest, replyField]⟩
        · rcases hid : dd.item "id" with e | tid
          · exact ⟨[], by simp [threadLoop, hj, hst, hdd, hid, postRequest, replyField]⟩
          · exact ⟨(threadLoop oracle ts 1 [tid] (some tid)).2,
              by simp [threadLoop, hj, hst, hdd, hid, postRequest, replyField]⟩

/-- Witness for C10 at a 280-character tweet and a thread of two
280-character segments. -/
theorem claim_C10_witness :
    t280.length = 280 ∧
      (x_post_tweet t280 errResp).2 = [Request.post t280 none] ∧
      ∃ rest, (x_post_thread th280 thOracle).2 =
        Request.post ((splitThread th280).getD 0 "") none :: rest := by
  have h := claim_C10
  exact ⟨by decide, h.1 errResp t280 (by decide),
         h.2 thOracle th280 (by decide) (by decide)⟩

/-- C1 fails as stated: a non-success response whose body is not JSON makes
`x_get_me` raise `JSONDecodeError` from `resp.json()` (line 76 runs before
the status check), so no error string is returned at all. -/
theorem claim_C1_counterexample :
    nonJsonResp.status ≠ 200 ∧
      x_get_me_out nonJsonResp = .error .jsonDecodeError ∧
      isOkStr (x_get_me_out nonJsonResp) = false :=
  ⟨by decide, rfl, rfl⟩

/-- C1 amended: for every operation and every non-success response whose
body parses as JSON (for posting also a text that passes validation, for a
thread a failure at any position after good responses), the operation
returns an error string containing the rendering of the parsed response
body. -/
theorem claim_C1_amended :
    (∀ (text : String) (resp : Resp) (d : JVal),
        text.length ≤ 280 → resp.jsonE = .ok d → resp.status ≠ 201 →
        ∃ pre post, (x_post_tweet text resp).1 = .ok (pre ++ pyStr d ++ post)) ∧
    (∀ (text : String) (oracle : Nat → Resp) (k : Nat) (d : JVal),
        2 ≤ (splitThread text).length →
        (∀ s ∈ splitThread text, s.length ≤ 280) →
        k < (splitThread text).length →
        (∀ j, j < k → goodPost (oracle j)) →
        (oracle k).status ≠ 201 → (oracle k).jsonE = .ok d →
        ∃ pre post, (x_post_thread text oracle).1 = .ok (pre ++ pyStr d ++ post)) ∧
    (∀ (tweet_id : String) (resp : Resp) (d : JVal),
        resp.jsonE = .ok d → resp.status ≠ 200 →
        ∃ pre post, (x_get_tweet tweet_id resp).1 = .ok (pre ++ pyStr d ++ post)) ∧
    (∀ (resp : Resp) (d : JVal),
        resp.jsonE = .ok d → resp.status ≠ 200 →
        ∃ pre post, (x_get_me resp).1 = .ok (pre ++ pyStr d ++ post)) ∧
    (∀ (tweet_id : String) (resp : Resp) (d : JVal),
        resp.text ≠ "" → resp.jsonE = .ok d → resp.status ≠ 200 →
        ∃ pre post, (x_delete_tweet tweet_id resp).1 = .ok (pre ++ pyStr d ++ post)) := by
  refine ⟨?_, ?_, ?_, ?_, ?_⟩
  · intro text resp d hlen hj hst
    refine ⟨"Error posting tweet: ", "", ?_⟩
    have hstep : (x_post_tweet text resp).1 = .ok ("Error posting tweet: " ++ pyStr d) := by
      unfold x_post_tweet
      rw [if_neg (by omega : ¬ 280 < text.length)]
      simp [hj, hst]
    rw [hstep, str_append_empty]
  · intro text oracle k d h2 hval hk hgood hfail hjson
    rw [x_post_thread_valid text oracle h2 hval]
    rw [threadLoop_fail oracle (splitThread text) 0 [] none k d hk
          (fun j hjk => by rw [Nat.zero_add]; exact hgood j hjk)
          (by rwa [Nat.zero_add]) (by rwa [Nat.zero_add])]
    refine ⟨"Error posting tweet " ++ toString (0 + k + 1) ++ ": ",
            "\nPosted so far: " ++ pyReprList ([] ++ postedIds oracle 0 k), ?_⟩
    simp [str_append_assoc]
  · intro tweet_id resp d hj hst
    refine ⟨"Error: ", "", ?_⟩
    have hstep : (x_get_tweet tweet_id resp).1 = .ok ("Error: " ++ pyStr d) := by
      unfold x_get_tweet x_get_tweet_out
      simp [hj, hst]
    rw [hstep, str_append_empty]
  · intro resp d hj hst
    refine ⟨"Error: ", "", ?_⟩
    have hstep : (x_get_me resp).1 = .ok ("Error: " ++ pyStr d) := by
      unfold x_get_me x_get_me_out
      simp [hj, hst]
    rw [hstep, str_append_empty]
  · intro tweet_id resp d htext hj hst
    refine ⟨"Error deleting tweet: ", "", ?_⟩
    have hstep : (x_delete_tweet tweet_id resp).1 = .ok ("Error deleting tweet: " ++ pyStr d) := by
      unfold x_delete_tweet x_delete_tweet_out
      rw [if_pos htext]
      simp [hj, hst]
    rw [hstep, str_append_empty]

/-- Witness for the amended C1: `x_get_me` on a 403 JSON error body. -/
theorem claim_C1_witness :
    ∃ pre post, (x_get_me errResp).1 =
      .ok (pre ++ pyStr (.obj (.cons "title" (.str "Forbidden") .nil)) ++ post) :=
  claim_C1_amended.2.2.2.1 errResp (.obj (.cons "title" (.str "Forbidden") .nil))
    rfl (by decide)

/-- C3: a thread of at least 2 trimmed segments with some segment over 280
characters returns the error string naming the first over-long segment's
1-based position and its length, and issues no network request. -/
theorem claim_C3 (text : String) (oracle : Nat → Resp)
    (h2 : 2 ≤ (splitThread text).length)
    (hover : ∃ s ∈ splitThread text, 280 < s.length) :
    ∃ i, i < (splitThread text).length ∧
      280 < ((splitThread text).getD i "").length ∧
      (∀ j, j < i → ((splitThread text).getD j "").length ≤ 280) ∧
      x_post_thread text oracle =
        (.ok ("Error: Tweet " ++ toString (i + 1) ++ " too long (" ++
              toString ((splitThread text).getD i "").length ++ " chars). Max 280."),
         []) := by
  obtain ⟨⟨i, n⟩, hf⟩ : ∃ p, firstOverLong (splitThread text) 0 = some p := by
    rcases hf : firstOverLong (splitThread text) 0 with _ | p
    · rw [firstOverLong_none_iff] at hf
      obtain ⟨s, hs, hlen⟩ := hover
      have := hf s hs
      omega
    · exact ⟨p, rfl⟩
  obtain ⟨hi, hlen, hn, hprev⟩ := firstOverLong_zero_spec _ i n hf
  refine ⟨i, hi, by rw [hlen]; exact hn, hprev, ?_⟩
  rw [hlen]
  unfold x_post_thread
  simp only [if_neg (by omega : ¬ (splitThread text).length < 2), hf]

/-- Witness for C3: second segment of 281 characters, position 2 reported. -/
theorem claim_C3_witness :
    ∃ i, i < (splitThread tC3).length ∧
      280 < ((splitThread tC3).getD i "").length ∧
      (∀ j, j < i → ((splitThread tC3).getD j "").length ≤ 280) ∧
      x_post_thread tC3 thOracle =
        (.ok ("Error: Tweet " ++ toString (i + 1) ++ " too long (" ++
              toString ((splitThread tC3).getD i "").length ++ " chars). Max 280."),
         []) :=
  claim_C3 tC3 thOracle (by decide) ⟨t281, by decide, by decide⟩

/-- C2: for a thread of N valid segments with all responses 201 (each
carrying a non-empty string identifier), `x_post_thread` issues exactly N
post requests in segment order, the first with no reply target and the
(j+1)-th replying to the identifier returned by the j-th response. -/
theorem claim_C2 (text : String) (oracle : Nat → Resp)
    (h2 : 2 ≤ (splitThread text).length)
    (hval : ∀ s ∈ splitThread text, s.length ≤ 280)
    (hok : ∀ j, j < (splitThread text).length → goodPost (oracle j)) :
    (x_post_thread text oracle).2.length = (splitThread text).length ∧
    ∀ j, j < (splitThread text).length →
      (x_post_thread text oracle).2.getD j .getMe =
        Request.post ((splitThread text).getD j "")
          (if j = 0 then none else some (.str (respIdD (oracle (j - 1))))) := by
  have htr : (x_post_thread text oracle).2 =
      expectedReqs oracle (splitThread text) 0 none := by
    rw [x_post_thread_valid text oracle h2 hval,
        threadLoop_success oracle (splitThread text) 0 [] none
          (fun j hj => by rw [Nat.zero_add]; exact hok j hj)]
  constructor
  · rw [htr]
    exact expectedReqs_length oracle (splitThread text) 0 none
  · intro j hj
    rw [htr, expectedReqs_getD oracle (splitThread text) 0 none j hj]
    rcases Nat.eq_zero_or_pos j with rfl | hpos
    · rfl
    · rw [if_neg (by omega), if_neg (by omega), Nat.zero_add]
      obtain ⟨_, _, hne⟩ := goodPost_respIdD _ (hok (j - 1) (by omega))
      unfold postRequest
      rw [replyField_str _ hne]

/-- Witness for C2: a two-segment thread against good responses with
identifiers "1", "2". -/
theorem claim_C2_witness :
    (x_post_thread "a\n\n---\n\nb" thOracle).2.length = 2 ∧
      (x_post_thread "a\n\n---\n\nb" thOracle).2.getD 0 .getMe = Request.post "a" none ∧
      (x_post_thread "a\n\n---\n\nb" thOracle).2.getD 1 .getMe =
        Request.post "b" (some (.str "1")) := by
  have h := claim_C2 "a\n\n---\n\nb" thOracle (by decide) (by decide) ?hok
  case hok =>
    intro j hj
    have hj2 : j < 2 := hj
    interval_cases j
    · exact ⟨rfl, "1", rfl, by decide⟩
    · exact ⟨rfl, "2", rfl, by decide⟩
  exact ⟨h.1, h.2 0 (by decide), h.2 1 (by decide)⟩

/-- C6: for a valid thread, when the first k responses are good and the
(k+1)-th fails, `x_post_thread` stops after k+1 requests and returns the
error string embedding the failing body and the repr of the k identifiers
already posted; the request trace contains no delete request (no rollback). -/
theorem claim_C6 (text : String) (oracle : Nat → Resp) (k : Nat) (d : JVal)
    (h2 : 2 ≤ (splitThread text).length)
    (hval : ∀ s ∈ splitThread text, s.length ≤ 280)
    (hk : k < (splitThread text).length)
    (hgood : ∀ j, j < k → goodPost (oracle j))
    (hfail : (oracle k).status ≠ 201)
    (hjson : (oracle k).jsonE = .ok d) :
    x_post_thread text oracle =
      (.ok ("Error posting tweet " ++ toString (k + 1) ++ ": " ++ pyStr d ++
            "\nPosted so far: " ++ pyReprList (postedIds oracle 0 k)),
       (expectedReqs oracle (splitThread text) 0 none).take (k + 1)) ∧
    (x_post_thread text oracle).2.length = k + 1 ∧
    ∀ r ∈ (x_post_thread text oracle).2, r.isDelete = false := by
  have heq : x_post_thread text oracle =
      (.ok ("Error posting tweet " ++ toString (k + 1) ++ ": " ++ pyStr d ++
            "\nPosted so far: " ++ pyReprList (postedIds oracle 0 k)),
       (expectedReqs oracle (splitThread text) 0 none).take (k + 1)) := by
    rw [x_post_thread_valid text oracle h2 hval,
        threadLoop_fail oracle (splitThread text) 0 [] none k d hk
          (fun j hjk => by rw [Nat.zero_add]; exact hgood j hjk)
          (by rwa [Nat.zero_add]) (by rwa [Nat.zero_add])]
    simp [Nat.zero_add]
  refine ⟨heq, ?_, ?_⟩
  · rw [heq]
    simp [List.length_take, expectedReqs_length]
    omega
  · intro r hr
    rw [heq] at hr
    have hr2 : r ∈ expectedReqs oracle (splitThread text) 0 none :=
      List.take_subset _ _ hr
    obtain ⟨tx, rp, rfl⟩ := expectedReqs_mem_post oracle (splitThread text) 0 none r hr2
    rfl

/-- Witness for C6: second response fails with a 403 JSON body; one
identifier already posted, two requests issued, none a delete. -/
theorem claim_C6_witness :
    x_post_thread "a\n\n---\n\nb" failOracle =
      (.ok ("Error posting tweet 2: \x7b'title': 'Forbidden'\x7d\nPosted so far: ['1']"),
       [Request.post "a" none, Request.post "b" (some (.str "1"))]) ∧
      (x_post_thread "a\n\n---\n\nb" failOracle).2.length = 2 := by
  have h := claim_C6 "a\n\n---\n\nb" failOracle 1
    (.obj (.cons "title" (.str "Forbidden") .nil))
    (by decide) (by decide) (by decide)
    (fun j hj => by
      have hj0 : j = 0 := by omega
      subst hj0
      exact ⟨rfl, "1", rfl, by decide⟩)
    (by decide) rfl
  exact ⟨h.1, h.2.1⟩

theorem exists_ok_iff_isOkStr (e : Except PyExc String) :
    (∃ s, e = .ok s) ↔ isOkStr e = true := by
  cases e <;> simp [isOkStr]

/-- C7 fails as stated: on a 200 response whose user object has no
`username`, `x_get_me` raises `KeyError` (line 92 subscripts directly)
instead of substituting "N/A". -/
theorem claim_C7_counterexample :
    meMissingUser.status = 200 ∧
      x_get_me_out meMissingUser = .error (.keyError "username") ∧
      isOkStr (x_get_me_out meMissingUser) = false :=
  ⟨rfl, rfl, rfl⟩

/-- C7 amended: on a 200 response the success formatters substitute
defaults only for the optional fields — the metric counts ("N/A" in
`x_get_me`, 0 in `x_get_tweet`) and `text`/`created_at` ("N/A") — while the
required fields (`username`, `name`, `id`) are subscripted directly, so a
response missing them raises `KeyError` rather than substituting. -/
theorem claim_C7_amended :
    (∀ (resp : Resp) (d data u nm idv : JVal),
        resp.status = 200 → resp.jsonE = .ok d → d.item "data" = .ok data →
        data.item "public_metrics" = .error (.keyError "public_metrics") →
        data.item "username" = .ok u → data.item "name" = .ok nm →
        data.item "id" = .ok idv →
        x_get_me_out resp =
          .ok ("Authenticated as: @" ++ pyStr u ++ "\nName: " ++ pyStr nm ++
               "\nID: " ++ pyStr idv ++ "\nFollowers: " ++ "N/A" ++
               "\nFollowing: " ++ "N/A" ++ "\nTweets: " ++ "N/A")) ∧
    (∀ (resp : Resp) (d data idv : JVal),
        resp.status = 200 → resp.jsonE = .ok d → d.item "data" = .ok data →
        data.item "id" = .ok idv →
        data.item "text" = .error (.keyError "text") →
        data.item "created_at" = .error (.keyError "created_at") →
        data.item "public_metrics" = .error (.keyError "public_metrics") →
        x_get_tweet_out resp =
          .ok ("Tweet ID: " ++ pyStr idv ++ "\nText: " ++ "N/A" ++
               "\nCreated: " ++ "N/A" ++ "\n\nMetrics:\n- Likes: " ++ "0" ++
               "\n- Retweets: " ++ "0" ++ "\n- Replies: " ++ "0" ++
               "\n- Impressions: " ++ "0" ++ "\n- Quotes: " ++ "0" ++
               "\n- Bookmarks: " ++ "0")) := by
  constructor
  · intro resp d data u nm idv hst hj hdata hpm hu hnm hid
    have hm := getD_ok_of_item_keyError data "public_metrics" (.obj .nil) hpm
    unfold x_get_me_out
    simp [hj, hst, hdata, hm, hu, hnm, hid, getD_obj_eq, JFields.lookup, pyStr]
  · intro resp d data idv hst hj hdata hid htx hcr hpm
    have hm := getD_ok_of_item_keyError data "public_metrics" (.obj .nil) hpm
    have htxD := getD_ok_of_item_keyError data "text" (.str "N/A") htx
    have hcrD := getD_ok_of_item_keyError data "created_at" (.str "N/A") hcr
    unfold x_get_tweet_out
    simp [hj, hst, hdata, hm, hid, htxD, hcrD, getD_obj_eq, JFields.lookup, pyStr, pyRepr]
    rfl

/-- Witness for the amended C7: concrete 200 responses with the optional
fields absent. -/
theorem claim_C7_witness :
    x_get_me_out meResp =
      .ok ("Authenticated as: @alice\nName: Alice\nID: 42\nFollowers: " ++ "N/A" ++
           "\nFollowing: " ++ "N/A" ++ "\nTweets: " ++ "N/A") ∧
    x_get_tweet_out tweetResp =
      .ok ("Tweet ID: 99\nText: N/A\nCreated: N/A\n\nMetrics:\n- Likes: " ++ "0" ++
           "\n- Retweets: " ++ "0" ++ "\n- Replies: " ++ "0" ++
           "\n- Impressions: " ++ "0" ++ "\n- Quotes: " ++ "0" ++
           "\n- Bookmarks: " ++ "0") := by
  have h := claim_C7_amended
  exact ⟨h.1 meResp _ _ (.str "alice") (.str "Alice") (.str "42") rfl rfl rfl rfl rfl rfl rfl,
         h.2 tweetResp _ _ (.str "99") rfl rfl rfl rfl rfl rfl rfl⟩

/-- C8 fails as stated: a 201 response whose JSON body lacks the `data` key
makes `x_post_tweet` raise `KeyError` (line 119) rather than return a
string. -/
theorem claim_C8_counterexample :
    (x_post_tweet "hi" post201NoData).1 = .error (.keyError "data") ∧
      isOkStr (x_post_tweet "hi" post201NoData).1 = false :=
  ⟨rfl, rfl⟩

/-- C8 amended: each of the five tools returns a plain string — no
exception propagates — provided every consumed response has a JSON body
(or, for delete, an empty body) and every success-status body carries the
keys the success path extracts; absent those provisos an exception escapes. -/
theorem claim_C8_amended :
    (∀ (text : String) (resp : Resp),
        280 < text.length ∨
          ((∃ d, resp.jsonE = .ok d) ∧ (resp.status = 201 → ∃ v, respIdE resp = .ok v)) →
        ∃ s, (x_post_tweet text resp).1 = .ok s) ∧
    (∀ (text : String) (oracle : Nat → Resp),
        (2 ≤ (splitThread text).length →
          (∀ s ∈ splitThread text, s.length ≤ 280) →
          ∀ j, j < (splitThread text).length →
            (∀ m, m < j → advancesPost (oracle m)) → weakOk (oracle j)) →
        ∃ s, (x_post_thread text oracle).1 = .ok s) ∧
    (∀ (tweet_id : String) (resp : Resp),
        (∃ d, resp.jsonE = .ok d) →
        (resp.status = 200 → ∃ d data idv fs, resp.jsonE = .ok d ∧
            d.item "data" = .ok data ∧ data.item "id" = .ok idv ∧
            JVal.getD data "public_metrics" (.obj .nil) = .ok (.obj fs)) →
        ∃ s, (x_get_tweet tweet_id resp).1 = .ok s) ∧
    (∀ (resp : Resp),
        (∃ d, resp.jsonE = .ok d) →
        (resp.status = 200 → ∃ d data u nm idv fs, resp.jsonE = .ok d ∧
            d.item "data" = .ok data ∧ data.item "username" = .ok u ∧
            data.item "name" = .ok nm ∧ data.item "id" = .ok idv ∧
            JVal.getD data "public_metrics" (.obj .nil) = .ok (.obj fs)) →
        ∃ s, (x_get_me resp).1 = .ok s) ∧
    (∀ (tweet_id : String) (resp : Resp),
        (resp.text = "" ∨ ∃ d, resp.jsonE = .ok d) →
        ∃ s, (x_delete_tweet tweet_id resp).1 = .ok s) := by
  refine ⟨?_, ?_, ?_, ?_, ?_⟩
  · intro text resp h
    rw [exists_ok_iff_isOkStr]
    by_cases h280 : 280 < text.length
    · unfold x_post_tweet
      rw [if_pos h280]
      rfl
    · rcases h with h280' | ⟨⟨d, hj⟩, h201⟩
      · omega
      · unfold x_post_tweet
        rw [if_neg h280]
        by_cases hst : resp.status = 201
        · obtain ⟨v, hv⟩ := h201 hst
          obtain ⟨d', dd, hj', hdd, hid⟩ := respIdE_ok_inv _ _ hv
          have hdeq : d' = d := by rw [hj] at hj'; cases hj'; rfl
          subst hdeq
          simp [hj, hst, hdd, hid, isOkStr]
        · simp [hj, hst, isOkStr]
  · intro text oracle h
    rw [exists_ok_iff_isOkStr]
    by_cases hlen : (splitThread text).length < 2
    · unfold x_post_thread
      rw [if_pos hlen]
      rfl
    · rcases hov : firstOverLong (splitThread text) 0 with _ | ⟨i, n⟩
      · have hval : ∀ s ∈ splitThread text, s.length ≤ 280 :=
          (firstOverLong_none_iff _ 0).mp hov
        rw [← exists_ok_iff_isOkStr,
            x_post_thread_valid text oracle (by omega) hval]
        exact threadLoop_ok oracle (splitThread text) 0 [] none
          (fun j hjlt hpre => by
            have hpre0 : ∀ m, m < j → advancesPost (oracle m) := by
              intro m hm
              have := hpre m hm
              rwa [Nat.zero_add] at this
            have := h (by omega) hval j hjlt hpre0
            rwa [Nat.zero_add])
          (Or.inr (by
            intro hc
            rw [hc] at hlen
            simp at hlen))
      · unfold x_post_thread
        simp only [if_neg hlen, hov]
        rfl
  · intro tweet_id resp hjson hsucc
    rw [exists_ok_iff_isOkStr]
    obtain ⟨d, hj⟩ := hjson
    unfold x_get_tweet x_get_tweet_out
    by_cases hst : resp.status = 200
    · obtain ⟨d', data, idv, fs, hj', hdata, hid, hm⟩ := hsucc hst
      have hdeq : d' = d := by rw [hj] at hj'; cases hj'; rfl
      subst hdeq
      obtain ⟨fsd, rfl, _⟩ := item_ok_isObj data "id" idv hid
      simp [hj, hst, hdata, hid, hm, getD_obj_eq, isOkStr]
    · simp [hj, hst, isOkStr]
  · intro resp hjson hsucc
    rw [exists_ok_iff_isOkStr]
    obtain ⟨d, hj⟩ := hjson
    unfold x_get_me x_get_me_out
    by_cases hst : resp.status = 200
    · obtain ⟨d', data, u, nm, idv, fs, hj', hdata, hu, hnm, hid, hm⟩ := hsucc hst
      have hdeq : d' = d := by rw [hj] at hj'; cases hj'; rfl
      subst hdeq
      simp [hj, hst, hdata, hu, hnm, hid, hm, getD_obj_eq, isOkStr]
    · simp [hj, hst, isOkStr]
  · intro tweet_id resp h
    rw [exists_ok_iff_isOkStr]
    unfold x_delete_tweet x_delete_tweet_out
    by_cases htext : resp.text = ""
    · simp only [htext, ne_eq, not_true_eq_false, if_false]
      split <;> rfl
    · rcases h with htext' | ⟨d, hj⟩
      · exact absurd htext' htext
      · simp only [ne_eq, htext, not_false_eq_true, if_true, hj]
        split <;> rfl

/-- Witness for the amended C8: a delete on a 200 empty-body response, and
a thread whose only consumed response is a 403 JSON error while the
never-consumed second response is not JSON (the proviso binds consumed
responses only). -/
theorem claim_C8_witness :
    (∃ s, (x_delete_tweet "77" delResp).1 = .ok s) ∧
      ∃ s, (x_post_thread "a\n\n---\n\nb" mixedOracle).1 = .ok s := by
  constructor
  · exact claim_C8_amended.2.2.2.2 "77" delResp (Or.inl rfl)
  · refine claim_C8_amended.2.1 "a\n\n---\n\nb" mixedOracle ?_
    intro _ _ j hj hpre
    have hj2 : j < 2 := hj
    interval_cases j
    · exact ⟨⟨_, rfl⟩, fun h201 => absurd h201 (by decide)⟩
    · exact absurd (hpre 0 (by omega)).1 (by decide)

end XMCP
